import Mathlib

/-!
Verification of the book-club connectivity demo (src/app/tui/src/main.rs).

The program is a single linear async `main`:
  1. `dotenv().ok()` then `env::var("MONGODB_URI").expect("MONGODB_URI not set")`
  2. `ClientOptions::parse(&uri).await?`
  3. `Client::with_options(client_options)?`
  4. `client.database("admin").run_command(doc! ("ping": 1), None).await?`
  5. `println!("Connected to MongoDB!")`
  6. `client.database("book_club").collection::<Document>("genres").find(None, None).await?`
  7. `println!("Genres in collection:")`
  8. `while let Some(book) = cursor.try_next().await? (println!("(:#?)", book))`
  9. `Ok(())`

We embed the run as a function from a `World` — oracles standing for the
environment and for the mongodb driver (parse result, client construction,
ping result, find/cursor behaviour) — to the trace of observable events
(driver operations and stdout prints) together with the process exit kind.
The cursor is modelled as the finite list of documents it delivers followed
by either clean exhaustion (`try_next` returns `Ok(None)`) or an error on
the next advance (`try_next` returns `Err e`).
-/

namespace BookClub

/-- Minimal BSON value tree, standing for `mongodb::bson::Bson`. -/
inductive Bson where
  | int (n : Int)
  | str (s : String)
  | boolean (b : Bool)
  | document (fields : List (String × Bson))
  | array (elems : List Bson)

/-- A BSON document (`mongodb::bson::Document`): named fields with values. -/
def Document := List (String × Bson)

/-- An error from the mongodb driver (`mongodb::error::Error`), carrying a message. -/
structure DriverError where
  msg : String

/-- Parsed client options (`mongodb::options::ClientOptions`), abstracted. -/
structure ClientOptions where
  srcUri : String

/-- A client handle (`mongodb::Client`), abstracted. -/
structure Client where
  opts : ClientOptions

/-- Options to `find` (`mongodb::options::FindOptions`); the program always passes `None`. -/
structure FindOptions where
  mkOpts ::

/-- Behaviour of an opened cursor: the documents it delivers in order, then
either clean exhaustion (`tailErr = none`, the final `try_next` yields
`Ok(None)`) or an error on the advance after the last document. -/
structure Cursor where
  docs : List Document
  tailErr : Option DriverError

/-- The arguments of a `find` call: logical database name, collection name,
filter argument and options argument. -/
structure FindCall where
  dbName : String
  collName : String
  filter : Option Document
  options : Option FindOptions

/-- Observable events of a run: driver operations and stdout prints. -/
inductive Event where
  | envRead (name : String)
  | opParse (uri : String)
  | opClientBuild
  | opRunCommand (dbName : String) (cmd : Document)
  | opFind (call : FindCall)
  | opAdvance
  | printLine (s : String)
  | printDoc (d : Document)

/-- How the process terminates: `Ok(())` from main (exit 0), `Err(e)` from
main (error displayed, nonzero exit), or a panic from `.expect` (diagnostic
displayed, nonzero exit). -/
inductive ExitKind where
  | success
  | errorExit (e : DriverError)
  | panicExit (msg : String)

/-- Process exit code for each termination kind (Rust: 0 for `Ok`, 1 for an
`Err` return from main, 101 for a panic). -/
def ExitKind.code : ExitKind → Nat
  | .success => 0
  | .errorExit _ => 1
  | .panicExit _ => 101

/-- The external world the program runs against: the process environment
(after `dotenv` has merged the `.env` file) and the driver's responses. -/
structure World where
  envUri : Option String
  parseResult : String → Except DriverError ClientOptions
  clientResult : ClientOptions → Except DriverError Client
  pingResult : Client → Except DriverError Document
  findResult : Client → FindCall → Except DriverError Cursor

/-- Name of the environment variable read by the program. -/
def mongodbUriVar : String := "MONGODB_URI"

/-- Panic message of `.expect` when the variable is unset. -/
def mongodbUriMissingMsg : String := "MONGODB_URI not set"

/-- The administrative database the ping is issued against. -/
def adminDbName : String := "admin"

/-- The ping command document `doc! ("ping": 1)`. -/
def pingCommand : Document := [("ping", Bson.int 1)]

/-- The fixed confirmation line printed after a successful ping. -/
def connectedMsg : String := "Connected to MongoDB!"

/-- The fixed logical database name of the scan. -/
def bookClubDbName : String := "book_club"

/-- The fixed collection name of the scan. -/
def genresCollName : String := "genres"

/-- The fixed header line printed after the cursor opens. -/
def genresHeaderMsg : String := "Genres in collection:"

/-- The one `find` call the program issues: fixed database and collection,
`None` filter, `None` options. -/
def mainFindCall : FindCall :=
  { dbName := bookClubDbName, collName := genresCollName,
    filter := none, options := none }

/-- The `while let Some(book) = cursor.try_next().await?` loop: each document
costs one advance and is printed; after the last document one more advance
either ends the loop (`Ok(None)`) or propagates the cursor error. -/
def scanLoop : List Document → Option DriverError → List Event × ExitKind
  | [], none => ([Event.opAdvance], ExitKind.success)
  | [], some e => ([Event.opAdvance], ExitKind.errorExit e)
  | d :: ds, t =>
      let rest := scanLoop ds t
      (Event.opAdvance :: Event.printDoc d :: rest.1, rest.2)

/-- The whole program: the event trace it produces and how it exits,
translated step by step from `main` in src/app/tui/src/main.rs. -/
def main (w : World) : List Event × ExitKind :=
  let tr0 : List Event := [Event.envRead mongodbUriVar]
  match w.envUri with
  | none => (tr0, ExitKind.panicExit mongodbUriMissingMsg)
  | some uri =>
    let tr1 := tr0 ++ [Event.opParse uri]
    match w.parseResult uri with
    | .error e => (tr1, ExitKind.errorExit e)
    | .ok clientOptions =>
      let tr2 := tr1 ++ [Event.opClientBuild]
      match w.clientResult clientOptions with
      | .error e => (tr2, ExitKind.errorExit e)
      | .ok client =>
        let tr3 := tr2 ++ [Event.opRunCommand adminDbName pingCommand]
        match w.pingResult client with
        | .error e => (tr3, ExitKind.errorExit e)
        | .ok _ =>
          let tr4 := tr3 ++ [Event.printLine connectedMsg]
          let tr5 := tr4 ++ [Event.opFind mainFindCall]
          match w.findResult client mainFindCall with
          | .error e => (tr5, ExitKind.errorExit e)
          | .ok cursor =>
            let tr6 := tr5 ++ [Event.printLine genresHeaderMsg]
            let loop := scanLoop cursor.docs cursor.tailErr
            (tr6 ++ loop.1, loop.2)

/-- The documents printed during a run, in print order. -/
def printedDocs (tr : List Event) : List Document :=
  tr.filterMap fun e =>
    match e with
    | .printDoc d => some d
    | _ => none

/-- The fixed status lines printed during a run, in print order. -/
def printedLines (tr : List Event) : List String :=
  tr.filterMap fun e =>
    match e with
    | .printLine s => some s
    | _ => none

/-- Recognizer for print events of either kind (anything written to stdout). -/
def isOutputE : Event → Bool
  | .printLine _ => true
  | .printDoc _ => true
  | _ => false

/-- Everything the run writes to stdout, as trace events. -/
def outputEvents (tr : List Event) : List Event :=
  tr.filter isOutputE

/-- Recognizer for the connection-string parse operation. -/
def isParseE : Event → Bool
  | .opParse _ => true
  | _ => false

/-- Recognizer for the client construction step. -/
def isBuildE : Event → Bool
  | .opClientBuild => true
  | _ => false

/-- Recognizer for the administrative ping (`run_command`). -/
def isPingE : Event → Bool
  | .opRunCommand _ _ => true
  | _ => false

/-- Recognizer for the cursor-opening `find` call. -/
def isFindE : Event → Bool
  | .opFind _ => true
  | _ => false

/-- Recognizer for a cursor advance (`try_next`). -/
def isAdvanceE : Event → Bool
  | .opAdvance => true
  | _ => false

/-- Recognizer for a document print. -/
def isPrintDocE : Event → Bool
  | .printDoc _ => true
  | _ => false

/-- Recognizer for the fixed confirmation line. -/
def isConnLineE : Event → Bool
  | .printLine s => s == connectedMsg
  | _ => false

/-- Recognizer for the fixed collection header line. -/
def isHeaderLineE : Event → Bool
  | .printLine s => s == genresHeaderMsg
  | _ => false

/-- Every event recognized by `p` occurs strictly before every event
recognized by `q` in the trace. -/
def EventsBefore (p q : Event → Bool) (tr : List Event) : Prop :=
  ∀ i j : Fin tr.length, p (tr.get i) = true → q (tr.get j) = true →
    (i : Nat) < (j : Nat)

/-- Restricted to cursor advances and document prints, the trace never has
two advances in a row: the document delivered by one advance is printed
before the next advance is issued. -/
def NoAdjacentAdvances (tr : List Event) : Prop :=
  List.Chain' (fun a b => isAdvanceE a = false ∨ isAdvanceE b = false)
    (tr.filter fun e => isAdvanceE e || isPrintDocE e)

/-- The first seven events of a run that reaches the scan loop. -/
def fullHead (uri : String) : List Event :=
  [Event.envRead mongodbUriVar, Event.opParse uri, Event.opClientBuild,
   Event.opRunCommand adminDbName pingCommand, Event.printLine connectedMsg,
   Event.opFind mainFindCall, Event.printLine genresHeaderMsg]

/-- The canonical complete trace: every trace `main` can produce is an
initial segment of `fullTrace uri ds` for some `uri` and `ds`. -/
def fullTrace (uri : String) (ds : List Document) : List Event :=
  fullHead uri ++ (scanLoop ds none).1

/-- `t1` is an initial segment of `t2`. -/
def TracePre (t1 t2 : List Event) : Prop :=
  ∃ rest, t2 = t1 ++ rest

/-- A reply document for a successful ping. -/
def pingOkReply : Document := [("ok", Bson.int 1)]

/-- A sample document, as the store could deliver it. -/
def sampleDoc1 : Document := [("name", Bson.str "Fantasy")]

/-- A second sample document. -/
def sampleDoc2 : Document := [("name", Bson.str "Mystery")]

/-- A fully cooperative world: the environment variable is set, parse,
client construction and ping succeed (the ping replying `pingBody`), and
the cursor delivers `ds` and then ends with `t`. -/
def demoWorld (pingBody : Document) (ds : List Document)
    (t : Option DriverError) : World :=
  { envUri := some "mongodb://localhost:27017",
    parseResult := fun uri => Except.ok { srcUri := uri },
    clientResult := fun clientOptions => Except.ok { opts := clientOptions },
    pingResult := fun _ => Except.ok pingBody,
    findResult := fun _ _ => Except.ok { docs := ds, tailErr := t } }

/-- A world whose environment lacks the connection-string variable. -/
def envMissingWorld : World :=
  { envUri := none,
    parseResult := fun uri => Except.ok { srcUri := uri },
    clientResult := fun clientOptions => Except.ok { opts := clientOptions },
    pingResult := fun _ => Except.ok pingOkReply,
    findResult := fun _ _ => Except.ok { docs := [], tailErr := none } }

/-- A world whose connection string does not parse. -/
def parseFailWorld : World :=
  { envUri := some "not-a-connection-string",
    parseResult := fun _ => Except.error { msg := "invalid connection string scheme" },
    clientResult := fun clientOptions => Except.ok { opts := clientOptions },
    pingResult := fun _ => Except.ok pingOkReply,
    findResult := fun _ _ => Except.ok { docs := [], tailErr := none } }

/-- A reachable-store world with an empty target collection. -/
def emptyOkWorld : World := demoWorld pingOkReply [] none

/-- A world whose store becomes unreachable after delivering one document. -/
def midScanFailWorld : World :=
  demoWorld pingOkReply [sampleDoc1] (some { msg := "connection reset by peer" })

/-- The run reaches the point after the successful ping: the environment
variable is set, the connection string parses, the client builds, and the
ping succeeds. -/
def ConnectPingOk (w : World) : Prop :=
  ∃ uri clientOptions client,
    w.envUri = some uri ∧
    w.parseResult uri = Except.ok clientOptions ∧
    w.clientResult clientOptions = Except.ok client ∧
    ∃ d, w.pingResult client = Except.ok d

/-- The run additionally opens the cursor successfully. -/
def CursorOpenOk (w : World) : Prop :=
  ∃ uri clientOptions client cursor,
    w.envUri = some uri ∧
    w.parseResult uri = Except.ok clientOptions ∧
    w.clientResult clientOptions = Except.ok client ∧
    (∃ d, w.pingResult client = Except.ok d) ∧
    w.findResult client mainFindCall = Except.ok cursor

/-- The full scan completes without error: every step succeeds and the
cursor is exhausted cleanly. -/
def FullScanOk (w : World) : Prop :=
  ∃ uri clientOptions client cursor,
    w.envUri = some uri ∧
    w.parseResult uri = Except.ok clientOptions ∧
    w.clientResult clientOptions = Except.ok client ∧
    (∃ d, w.pingResult client = Except.ok d) ∧
    w.findResult client mainFindCall = Except.ok cursor ∧
    cursor.tailErr = none

/-! ### Lemmas about the scan loop -/

theorem scanLoop_exit_none (ds : List Document) :
    (scanLoop ds none).2 = ExitKind.success := by
  induction ds with
  | nil => rfl
  | cons d ds ih => simpa [scanLoop] using ih

theorem scanLoop_exit_some (ds : List Document) (e : DriverError) :
    (scanLoop ds (some e)).2 = ExitKind.errorExit e := by
  induction ds with
  | nil => rfl
  | cons d ds ih => simpa [scanLoop] using ih

theorem scanLoop_printedDocs (ds : List Document) (t : Option DriverError) :
    printedDocs (scanLoop ds t).1 = ds := by
  induction ds with
  | nil => cases t <;> rfl
  | cons d ds ih => simp [scanLoop, printedDocs] at ih ⊢; exact ih

theorem scanLoop_mem (ds : List Document) (t : Option DriverError) :
    ∀ e ∈ (scanLoop ds t).1, e = Event.opAdvance ∨ ∃ d, e = Event.printDoc d := by
  induction ds with
  | nil =>
      cases t <;> (intro e he; simp [scanLoop] at he; subst he; exact Or.inl rfl)
  | cons d ds ih =>
      intro e he
      simp only [scanLoop, List.mem_cons] at he
      rcases he with h | h | h
      · exact Or.inl h
      · exact Or.inr ⟨d, h⟩
      · exact ih e h

theorem scanLoop_printedLines (ds : List Document) (t : Option DriverError) :
    printedLines (scanLoop ds t).1 = [] := by
  induction ds with
  | nil => cases t <;> rfl
  | cons d ds ih => simp [scanLoop, printedLines] at ih ⊢; exact ih

/-! ### Equations for each branch of the run -/

theorem main_env_none (w : World) (h : w.envUri = none) :
    main w = ([Event.envRead mongodbUriVar], ExitKind.panicExit mongodbUriMissingMsg) := by
  simp [main, h]

theorem main_parse_err (w : World) (uri : String) (e : DriverError)
    (h1 : w.envUri = some uri) (h2 : w.parseResult uri = Except.error e) :
    main w = ([Event.envRead mongodbUriVar, Event.opParse uri], ExitKind.errorExit e) := by
  simp [main, h1, h2]

theorem main_client_err (w : World) (uri : String) (clientOptions : ClientOptions)
    (e : DriverError) (h1 : w.envUri = some uri)
    (h2 : w.parseResult uri = Except.ok clientOptions)
    (h3 : w.clientResult clientOptions = Except.error e) :
    main w = ([Event.envRead mongodbUriVar, Event.opParse uri, Event.opClientBuild],
      ExitKind.errorExit e) := by
  simp [main, h1, h2, h3]

theorem main_ping_err (w : World) (uri : String) (clientOptions : ClientOptions)
    (client : Client) (e : DriverError) (h1 : w.envUri = some uri)
    (h2 : w.parseResult uri = Except.ok clientOptions)
    (h3 : w.clientResult clientOptions = Except.ok client)
    (h4 : w.pingResult client = Except.error e) :
    main w = ([Event.envRead mongodbUriVar, Event.opParse uri, Event.opClientBuild,
      Event.opRunCommand adminDbName pingCommand], ExitKind.errorExit e) := by
  simp [main, h1, h2, h3, h4]

theorem main_find_err (w : World) (uri : String) (clientOptions : ClientOptions)
    (client : Client) (d : Document) (e : DriverError) (h1 : w.envUri = some uri)
    (h2 : w.parseResult uri = Except.ok clientOptions)
    (h3 : w.clientResult clientOptions = Except.ok client)
    (h4 : w.pingResult client = Except.ok d)
    (h5 : w.findResult client mainFindCall = Except.error e) :
    main w = ([Event.envRead mongodbUriVar, Event.opParse uri, Event.opClientBuild,
      Event.opRunCommand adminDbName pingCommand, Event.printLine connectedMsg,
      Event.opFind mainFindCall], ExitKind.errorExit e) := by
  simp [main, h1, h2, h3, h4, h5]

theorem main_find_ok (w : World) (uri : String) (clientOptions : ClientOptions)
    (client : Client) (d : Document) (cursor : Cursor) (h1 : w.envUri = some uri)
    (h2 : w.parseResult uri = Except.ok clientOptions)
    (h3 : w.clientResult clientOptions = Except.ok client)
    (h4 : w.pingResult client = Except.ok d)
    (h5 : w.findResult client mainFindCall = Except.ok cursor) :
    main w = (Event.envRead mongodbUriVar :: Event.opParse uri :: Event.opClientBuild ::
      Event.opRunCommand adminDbName pingCommand :: Event.printLine connectedMsg ::
      Event.opFind mainFindCall :: Event.printLine genresHeaderMsg ::
      (scanLoop cursor.docs cursor.tailErr).1,
      (scanLoop cursor.docs cursor.tailErr).2) := by
  simp [main, h1, h2, h3, h4, h5]

theorem scanLoop_trace_indep (ds : List Document) (t : Option DriverError) :
    (scanLoop ds t).1 = (scanLoop ds none).1 := by
  induction ds with
  | nil => cases t <;> rfl
  | cons d ds ih => simp [scanLoop, ih]

theorem scanLoop_no_ops (ds : List Document) (t : Option DriverError) :
    ∀ e ∈ (scanLoop ds t).1, isParseE e = false ∧ isBuildE e = false ∧
      isPingE e = false ∧ isFindE e = false ∧ isConnLineE e = false ∧
      isHeaderLineE e = false := by
  intro e he
  rcases scanLoop_mem ds t e he with rfl | ⟨d, rfl⟩ <;>
    exact ⟨rfl, rfl, rfl, rfl, rfl, rfl⟩

theorem scanLoop_filter_self (ds : List Document) (t : Option DriverError) :
    ((scanLoop ds t).1.filter fun e => isAdvanceE e || isPrintDocE e) =
      (scanLoop ds t).1 := by
  rw [List.filter_eq_self]
  intro e he
  rcases scanLoop_mem ds t e he with rfl | ⟨d, rfl⟩ <;> rfl

theorem scanLoop_chain (ds : List Document) (t : Option DriverError) :
    List.Chain' (fun a b => isAdvanceE a = false ∨ isAdvanceE b = false)
      (scanLoop ds t).1 := by
  induction ds with
  | nil => cases t <;> exact List.chain'_singleton _
  | cons d ds ih =>
      rw [show (scanLoop (d :: ds) t).1 =
        Event.opAdvance :: Event.printDoc d :: (scanLoop ds t).1 from rfl]
      rw [List.chain'_cons]
      refine ⟨Or.inr rfl, ?_⟩
      rw [List.chain'_cons']
      exact ⟨fun y _ => Or.inl rfl, ih⟩

theorem scanLoop_countP_zero (ds : List Document) (t : Option DriverError)
    (p : Event → Bool) (h1 : p Event.opAdvance = false)
    (h2 : ∀ d, p (Event.printDoc d) = false) :
    (scanLoop ds t).1.countP p = 0 := by
  rw [List.countP_eq_zero]
  intro e he
  rcases scanLoop_mem ds t e he with rfl | ⟨d, rfl⟩
  · simp [h1]
  · simp [h2 d]

theorem main_trace_pre (w : World) :
    ∃ uri ds, TracePre (main w).1 (fullTrace uri ds) := by
  rcases henv : w.envUri with _ | uri
  · rw [main_env_none w henv]
    exact ⟨"", [], ⟨[Event.opParse "", Event.opClientBuild,
      Event.opRunCommand adminDbName pingCommand, Event.printLine connectedMsg,
      Event.opFind mainFindCall, Event.printLine genresHeaderMsg,
      Event.opAdvance], rfl⟩⟩
  rcases hp : w.parseResult uri with e | clientOptions
  · rw [main_parse_err w uri e henv hp]
    exact ⟨uri, [], ⟨[Event.opClientBuild,
      Event.opRunCommand adminDbName pingCommand, Event.printLine connectedMsg,
      Event.opFind mainFindCall, Event.printLine genresHeaderMsg,
      Event.opAdvance], rfl⟩⟩
  rcases hc : w.clientResult clientOptions with e | client
  · rw [main_client_err w uri clientOptions e henv hp hc]
    exact ⟨uri, [], ⟨[Event.opRunCommand adminDbName pingCommand,
      Event.printLine connectedMsg, Event.opFind mainFindCall,
      Event.printLine genresHeaderMsg, Event.opAdvance], rfl⟩⟩
  rcases hping : w.pingResult client with e | d
  · rw [main_ping_err w uri clientOptions client e henv hp hc hping]
    exact ⟨uri, [], ⟨[Event.printLine connectedMsg, Event.opFind mainFindCall,
      Event.printLine genresHeaderMsg, Event.opAdvance], rfl⟩⟩
  rcases hf : w.findResult client mainFindCall with e | cursor
  · rw [main_find_err w uri clientOptions client d e henv hp hc hping hf]
    exact ⟨uri, [], ⟨[Event.printLine genresHeaderMsg, Event.opAdvance], rfl⟩⟩
  · refine ⟨uri, cursor.docs, [], ?_⟩
    have hloop := scanLoop_trace_indep cursor.docs cursor.tailErr
    simp [fullTrace, fullHead, hloop,
      main_find_ok w uri clientOptions client d cursor henv hp hc hping hf]

theorem eventsBefore_of_no_q (p q : Event → Bool) (tr : List Event)
    (h : ∀ e ∈ tr, q e = false) : EventsBefore p q tr := by
  intro i j _ hq
  have hmem : tr.get j ∈ tr := tr.get_mem j.1 j.2
  rw [h _ hmem] at hq
  exact Bool.noConfusion hq

theorem eventsBefore_append (p q : Event → Bool) (l1 l2 : List Event)
    (hp : ∀ e ∈ l2, p e = false) (hq : ∀ e ∈ l1, q e = false) :
    EventsBefore p q (l1 ++ l2) := by
  intro i j hpi hqj
  have hi : (i : Nat) < l1.length := by
    by_contra hge
    push_neg at hge
    have hmem : (l1 ++ l2).get i ∈ l2 := by
      rw [List.get_eq_getElem, List.getElem_append_right hge]
      exact List.getElem_mem _
    rw [hp _ hmem] at hpi
    exact Bool.noConfusion hpi
  have hj : l1.length ≤ (j : Nat) := by
    by_contra hlt
    push_neg at hlt
    have hmem : (l1 ++ l2).get j ∈ l1 := by
      rw [List.get_eq_getElem, List.getElem_append_left hlt]
      exact List.getElem_mem _
    rw [hq _ hmem] at hqj
    exact Bool.noConfusion hqj
  omega

theorem eventsBefore_of_trace_pre (p q : Event → Bool) (t1 t2 : List Event)
    (hpre : TracePre t1 t2) (h : EventsBefore p q t2) : EventsBefore p q t1 := by
  rcases hpre with ⟨rest, rfl⟩
  intro i j hpi hqj
  have hi : (i : Nat) < (t1 ++ rest).length := by
    rw [List.length_append]
    exact Nat.lt_of_lt_of_le i.isLt (Nat.le_add_right _ _)
  have hj : (j : Nat) < (t1 ++ rest).length := by
    rw [List.length_append]
    exact Nat.lt_of_lt_of_le j.isLt (Nat.le_add_right _ _)
  refine h ⟨i.1, hi⟩ ⟨j.1, hj⟩ ?_ ?_
  · rw [List.get_eq_getElem] at hpi ⊢
    rw [List.getElem_append_left i.isLt]
    exact hpi
  · rw [List.get_eq_getElem] at hqj ⊢
    rw [List.getElem_append_left j.isLt]
    exact hqj

theorem noAdjacentAdvances_of_trace_pre (t1 t2 : List Event)
    (hpre : TracePre t1 t2) (h : NoAdjacentAdvances t2) :
    NoAdjacentAdvances t1 := by
  rcases hpre with ⟨rest, rfl⟩
  unfold NoAdjacentAdvances at h ⊢
  rw [List.filter_append] at h
  exact h.left_of_append

theorem countP_le_of_trace_pre (p : Event → Bool) (t1 t2 : List Event)
    (hpre : TracePre t1 t2) : t1.countP p ≤ t2.countP p := by
  rcases hpre with ⟨rest, rfl⟩
  rw [List.countP_append]
  exact Nat.le_add_right _ _

theorem fullTrace_countP (uri : String) (ds : List Document)
    (p : Event → Bool) (h1 : p Event.opAdvance = false)
    (h2 : ∀ d, p (Event.printDoc d) = false) :
    (fullTrace uri ds).countP p = (fullHead uri).countP p := by
  unfold fullTrace
  rw [List.countP_append, scanLoop_countP_zero ds none p h1 h2, Nat.add_zero]

theorem fullTrace_parse_before_ping (uri : String) (ds : List Document) :
    EventsBefore isParseE isPingE (fullTrace uri ds) := by
  refine eventsBefore_append isParseE isPingE
    [Event.envRead mongodbUriVar, Event.opParse uri]
    ([Event.opClientBuild, Event.opRunCommand adminDbName pingCommand,
      Event.printLine connectedMsg, Event.opFind mainFindCall,
      Event.printLine genresHeaderMsg] ++ (scanLoop ds none).1) ?_ ?_
  · intro e he
    rw [List.mem_append] at he
    rcases he with he | he
    · simp only [List.mem_cons, List.not_mem_nil, or_false] at he
      rcases he with rfl | rfl | rfl | rfl | rfl <;> rfl
    · exact (scanLoop_no_ops ds none e he).1
  · intro e he
    simp only [List.mem_cons, List.not_mem_nil, or_false] at he
    rcases he with rfl | rfl <;> rfl

theorem fullTrace_build_before_ping (uri : String) (ds : List Document) :
    EventsBefore isBuildE isPingE (fullTrace uri ds) := by
  refine eventsBefore_append isBuildE isPingE
    [Event.envRead mongodbUriVar, Event.opParse uri, Event.opClientBuild]
    ([Event.opRunCommand adminDbName pingCommand,
      Event.printLine connectedMsg, Event.opFind mainFindCall,
      Event.printLine genresHeaderMsg] ++ (scanLoop ds none).1) ?_ ?_
  · intro e he
    rw [List.mem_append] at he
    rcases he with he | he
    · simp only [List.mem_cons, List.not_mem_nil, or_false] at he
      rcases he with rfl | rfl | rfl | rfl <;> rfl
    · exact (scanLoop_no_ops ds none e he).2.1
  · intro e he
    simp only [List.mem_cons, List.not_mem_nil, or_false] at he
    rcases he with rfl | rfl | rfl <;> rfl

theorem fullTrace_ping_before_find (uri : String) (ds : List Document) :
    EventsBefore isPingE isFindE (fullTrace uri ds) := by
  refine eventsBefore_append isPingE isFindE
    [Event.envRead mongodbUriVar, Event.opParse uri, Event.opClientBuild,
     Event.opRunCommand adminDbName pingCommand]
    ([Event.printLine connectedMsg, Event.opFind mainFindCall,
      Event.printLine genresHeaderMsg] ++ (scanLoop ds none).1) ?_ ?_
  · intro e he
    rw [List.mem_append] at he
    rcases he with he | he
    · simp only [List.mem_cons, List.not_mem_nil, or_false] at he
      rcases he with rfl | rfl | rfl <;> rfl
    · exact (scanLoop_no_ops ds none e he).2.2.1
  · intro e he
    simp only [List.mem_cons, List.not_mem_nil, or_false] at he
    rcases he with rfl | rfl | rfl | rfl <;> rfl

theorem fullTrace_find_before_printDoc (uri : String) (ds : List Document) :
    EventsBefore isFindE isPrintDocE (fullTrace uri ds) := by
  refine eventsBefore_append isFindE isPrintDocE
    [Event.envRead mongodbUriVar, Event.opParse uri, Event.opClientBuild,
     Event.opRunCommand adminDbName pingCommand, Event.printLine connectedMsg,
     Event.opFind mainFindCall]
    ([Event.printLine genresHeaderMsg] ++ (scanLoop ds none).1) ?_ ?_
  · intro e he
    rw [List.mem_append] at he
    rcases he with he | he
    · simp only [List.mem_cons, List.not_mem_nil, or_false] at he
      rcases he with rfl
      rfl
    · exact (scanLoop_no_ops ds none e he).2.2.2.1
  · intro e he
    simp only [List.mem_cons, List.not_mem_nil, or_false] at he
    rcases he with rfl | rfl | rfl | rfl | rfl | rfl <;> rfl

theorem fullTrace_chain (uri : String) (ds : List Document) :
    NoAdjacentAdvances (fullTrace uri ds) := by
  unfold NoAdjacentAdvances fullTrace
  rw [List.filter_append]
  rw [show ((fullHead uri).filter fun e => isAdvanceE e || isPrintDocE e) =
    [] from rfl]
  rw [List.nil_append, scanLoop_filter_self]
  exact scanLoop_chain ds none

theorem fullTrace_conn_before_find (uri : String) (ds : List Document) :
    EventsBefore isConnLineE isFindE (fullTrace uri ds) := by
  refine eventsBefore_append isConnLineE isFindE
    [Event.envRead mongodbUriVar, Event.opParse uri, Event.opClientBuild,
     Event.opRunCommand adminDbName pingCommand, Event.printLine connectedMsg]
    ([Event.opFind mainFindCall, Event.printLine genresHeaderMsg] ++
      (scanLoop ds none).1) ?_ ?_
  · intro e he
    rw [List.mem_append] at he
    rcases he with he | he
    · simp only [List.mem_cons, List.not_mem_nil, or_false] at he
      rcases he with rfl | rfl
      · rfl
      · decide
    · exact (scanLoop_no_ops ds none e he).2.2.2.2.1
  · intro e he
    simp only [List.mem_cons, List.not_mem_nil, or_false] at he
    rcases he with rfl | rfl | rfl | rfl | rfl <;> rfl

theorem fullTrace_conn_before_advance (uri : String) (ds : List Document) :
    EventsBefore isConnLineE isAdvanceE (fullTrace uri ds) := by
  refine eventsBefore_append isConnLineE isAdvanceE
    [Event.envRead mongodbUriVar, Event.opParse uri, Event.opClientBuild,
     Event.opRunCommand adminDbName pingCommand, Event.printLine connectedMsg]
    ([Event.opFind mainFindCall, Event.printLine genresHeaderMsg] ++
      (scanLoop ds none).1) ?_ ?_
  · intro e he
    rw [List.mem_append] at he
    rcases he with he | he
    · simp only [List.mem_cons, List.not_mem_nil, or_false] at he
      rcases he with rfl | rfl
      · rfl
      · decide
    · exact (scanLoop_no_ops ds none e he).2.2.2.2.1
  · intro e he
    simp only [List.mem_cons, List.not_mem_nil, or_false] at he
    rcases he with rfl | rfl | rfl | rfl | rfl <;> rfl

theorem fullTrace_header_before_printDoc (uri : String) (ds : List Document) :
    EventsBefore isHeaderLineE isPrintDocE (fullTrace uri ds) := by
  refine eventsBefore_append isHeaderLineE isPrintDocE (fullHead uri)
    ((scanLoop ds none).1) ?_ ?_
  · intro e he
    exact (scanLoop_no_ops ds none e he).2.2.2.2.2
  · intro e he
    simp only [fullHead, List.mem_cons, List.not_mem_nil, or_false] at he
    rcases he with rfl | rfl | rfl | rfl | rfl | rfl | rfl <;> rfl

theorem fullTrace_count_parse (uri : String) (ds : List Document) :
    (fullTrace uri ds).countP isParseE ≤ 1 := by
  rw [fullTrace_countP uri ds isParseE rfl fun d => rfl]
  simp [fullHead, List.countP_cons, isParseE]

theorem fullTrace_count_build (uri : String) (ds : List Document) :
    (fullTrace uri ds).countP isBuildE ≤ 1 := by
  rw [fullTrace_countP uri ds isBuildE rfl fun d => rfl]
  simp [fullHead, List.countP_cons, isBuildE]

theorem fullTrace_count_ping (uri : String) (ds : List Document) :
    (fullTrace uri ds).countP isPingE ≤ 1 := by
  rw [fullTrace_countP uri ds isPingE rfl fun d => rfl]
  simp [fullHead, List.countP_cons, isPingE]

theorem fullTrace_count_find (uri : String) (ds : List Document) :
    (fullTrace uri ds).countP isFindE ≤ 1 := by
  rw [fullTrace_countP uri ds isFindE rfl fun d => rfl]
  simp [fullHead, List.countP_cons, isFindE]

/-! ### Reaching and failing the connect, ping and cursor-open milestones -/

theorem not_connectPingOk_env_none (w : World) (henv : w.envUri = none) :
    ¬ ConnectPingOk w := by
  rintro ⟨u, o, c, hu, -, -, -⟩
  rw [henv] at hu
  exact Option.noConfusion hu

theorem not_connectPingOk_parse_err (w : World) (uri : String) (e : DriverError)
    (henv : w.envUri = some uri) (hp : w.parseResult uri = Except.error e) :
    ¬ ConnectPingOk w := by
  rintro ⟨u, o, c, hu, hpu, -, -⟩
  rw [henv] at hu
  injection hu with h1
  subst h1
  rw [hp] at hpu
  exact Except.noConfusion hpu

theorem not_connectPingOk_client_err (w : World) (uri : String)
    (clientOptions : ClientOptions) (e : DriverError)
    (henv : w.envUri = some uri)
    (hp : w.parseResult uri = Except.ok clientOptions)
    (hc : w.clientResult clientOptions = Except.error e) :
    ¬ ConnectPingOk w := by
  rintro ⟨u, o, c, hu, hpu, hcu, -⟩
  rw [henv] at hu
  injection hu with h1
  subst h1
  rw [hp] at hpu
  injection hpu with h2
  subst h2
  rw [hc] at hcu
  exact Except.noConfusion hcu

theorem not_connectPingOk_ping_err (w : World) (uri : String)
    (clientOptions : ClientOptions) (client : Client) (e : DriverError)
    (henv : w.envUri = some uri)
    (hp : w.parseResult uri = Except.ok clientOptions)
    (hc : w.clientResult clientOptions = Except.ok client)
    (hping : w.pingResult client = Except.error e) :
    ¬ ConnectPingOk w := by
  rintro ⟨u, o, c, hu, hpu, hcu, dd, hd⟩
  rw [henv] at hu
  injection hu with h1
  subst h1
  rw [hp] at hpu
  injection hpu with h2
  subst h2
  rw [hc] at hcu
  injection hcu with h3
  subst h3
  rw [hping] at hd
  exact Except.noConfusion hd

theorem not_cursorOpenOk_of_not_connect (w : World) (h : ¬ ConnectPingOk w) :
    ¬ CursorOpenOk w := by
  rintro ⟨u, o, c, cur, hu, hpu, hcu, hping, -⟩
  exact h ⟨u, o, c, hu, hpu, hcu, hping⟩

theorem not_cursorOpenOk_find_err (w : World) (uri : String)
    (clientOptions : ClientOptions) (client : Client) (e : DriverError)
    (henv : w.envUri = some uri)
    (hp : w.parseResult uri = Except.ok clientOptions)
    (hc : w.clientResult clientOptions = Except.ok client)
    (hf : w.findResult client mainFindCall = Except.error e) :
    ¬ CursorOpenOk w := by
  rintro ⟨u, o, c, cur, hu, hpu, hcu, -, hfu⟩
  rw [henv] at hu
  injection hu with h1
  subst h1
  rw [hp] at hpu
  injection hpu with h2
  subst h2
  rw [hc] at hcu
  injection hcu with h3
  subst h3
  rw [hf] at hfu
  exact Except.noConfusion hfu

/-! ### Exit-status characterization -/

theorem code_zero_iff_success (k : ExitKind) : k.code = 0 ↔ k = ExitKind.success := by
  cases k <;> simp [ExitKind.code]

theorem main_code_zero_iff (w : World) : (main w).2.code = 0 ↔ FullScanOk w := by
  constructor
  · intro h
    rcases henv : w.envUri with _ | uri
    · rw [main_env_none w henv] at h
      simp [ExitKind.code] at h
    rcases hp : w.parseResult uri with e | clientOptions
    · rw [main_parse_err w uri e henv hp] at h
      simp [ExitKind.code] at h
    rcases hc : w.clientResult clientOptions with e | client
    · rw [main_client_err w uri clientOptions e henv hp hc] at h
      simp [ExitKind.code] at h
    rcases hping : w.pingResult client with e | d
    · rw [main_ping_err w uri clientOptions client e henv hp hc hping] at h
      simp [ExitKind.code] at h
    rcases hf : w.findResult client mainFindCall with e | cursor
    · rw [main_find_err w uri clientOptions client d e henv hp hc hping hf] at h
      simp [ExitKind.code] at h
    rcases ht : cursor.tailErr with _ | e
    · exact ⟨uri, clientOptions, client, cursor, henv, hp, hc, ⟨d, hping⟩, hf, ht⟩
    · rw [main_find_ok w uri clientOptions client d cursor henv hp hc hping hf] at h
      simp only [ht, scanLoop_exit_some] at h
      simp [ExitKind.code] at h
  · rintro ⟨uri, clientOptions, client, cursor, henv, hp, hc, ⟨d, hping⟩, hf, ht⟩
    rw [main_find_ok w uri clientOptions client d cursor henv hp hc hping hf]
    simp [ht, scanLoop_exit_none, ExitKind.code]

/-! ### Printed output in the branch that reaches the scan -/

theorem main_printedDocs_find_ok (w : World) (uri : String)
    (clientOptions : ClientOptions) (client : Client) (d : Document)
    (cursor : Cursor) (h1 : w.envUri = some uri)
    (h2 : w.parseResult uri = Except.ok clientOptions)
    (h3 : w.clientResult clientOptions = Except.ok client)
    (h4 : w.pingResult client = Except.ok d)
    (h5 : w.findResult client mainFindCall = Except.ok cursor) :
    printedDocs (main w).1 = cursor.docs := by
  rw [main_find_ok w uri clientOptions client d cursor h1 h2 h3 h4 h5]
  show printedDocs (Event.envRead mongodbUriVar :: Event.opParse uri ::
    Event.opClientBuild :: Event.opRunCommand adminDbName pingCommand ::
    Event.printLine connectedMsg :: Event.opFind mainFindCall ::
    Event.printLine genresHeaderMsg :: (scanLoop cursor.docs cursor.tailErr).1)
    = cursor.docs
  simp only [printedDocs, List.filterMap_cons]
  exact scanLoop_printedDocs cursor.docs cursor.tailErr

theorem main_printedLines_find_ok (w : World) (uri : String)
    (clientOptions : ClientOptions) (client : Client) (d : Document)
    (cursor : Cursor) (h1 : w.envUri = some uri)
    (h2 : w.parseResult uri = Except.ok clientOptions)
    (h3 : w.clientResult clientOptions = Except.ok client)
    (h4 : w.pingResult client = Except.ok d)
    (h5 : w.findResult client mainFindCall = Except.ok cursor) :
    printedLines (main w).1 = [connectedMsg, genresHeaderMsg] := by
  rw [main_find_ok w uri clientOptions client d cursor h1 h2 h3 h4 h5]
  show printedLines (Event.envRead mongodbUriVar :: Event.opParse uri ::
    Event.opClientBuild :: Event.opRunCommand adminDbName pingCommand ::
    Event.printLine connectedMsg :: Event.opFind mainFindCall ::
    Event.printLine genresHeaderMsg :: (scanLoop cursor.docs cursor.tailErr).1)
    = [connectedMsg, genresHeaderMsg]
  simp only [printedLines, List.filterMap_cons]
  have h := scanLoop_printedLines cursor.docs cursor.tailErr
  simp only [printedLines] at h
  rw [h]

/-! ### The claims -/

/-- Claim C1: for every reachable store (environment variable set, parse,
client construction and ping succeed) whose cursor delivers the documents
`cursor.docs` and is then exhausted cleanly, the scan-and-print loop prints
exactly those documents, each exactly once, in cursor-delivery order, and
the program returns success. -/
theorem c1_scan_prints_each_doc_once (w : World) (uri : String)
    (clientOptions : ClientOptions) (client : Client) (d : Document)
    (cursor : Cursor) (h1 : w.envUri = some uri)
    (h2 : w.parseResult uri = Except.ok clientOptions)
    (h3 : w.clientResult clientOptions = Except.ok client)
    (h4 : w.pingResult client = Except.ok d)
    (h5 : w.findResult client mainFindCall = Except.ok cursor)
    (h6 : cursor.tailErr = none) :
    printedDocs (main w).1 = cursor.docs ∧ (main w).2 = ExitKind.success := by
  refine ⟨main_printedDocs_find_ok w uri clientOptions client d cursor
    h1 h2 h3 h4 h5, ?_⟩
  rw [main_find_ok w uri clientOptions client d cursor h1 h2 h3 h4 h5]
  show (scanLoop cursor.docs cursor.tailErr).2 = ExitKind.success
  rw [h6, scanLoop_exit_none]

/-- Witness for C1: a concrete two-document world. -/
theorem c1_scan_prints_each_doc_once_witness :
    printedDocs (main (demoWorld pingOkReply [sampleDoc1, sampleDoc2] none)).1 =
      [sampleDoc1, sampleDoc2] ∧
    (main (demoWorld pingOkReply [sampleDoc1, sampleDoc2] none)).2 =
      ExitKind.success :=
  c1_scan_prints_each_doc_once
    (demoWorld pingOkReply [sampleDoc1, sampleDoc2] none)
    "mongodb://localhost:27017" { srcUri := "mongodb://localhost:27017" }
    { opts := { srcUri := "mongodb://localhost:27017" } } pingOkReply
    { docs := [sampleDoc1, sampleDoc2], tailErr := none } rfl rfl rfl rfl rfl rfl

/-- Claim C2: the process exit code is zero exactly when the full scan
completes without error; equivalently `main` ends in success exactly then,
so any parse, client-construction, ping, cursor-open or cursor-advance
failure (and the missing-variable panic) exits nonzero. -/
theorem c2_exit_zero_iff_scan_completes (w : World) :
    ((main w).2.code = 0 ↔ FullScanOk w) ∧
    ((main w).2 = ExitKind.success ↔ FullScanOk w) := by
  constructor
  · exact main_code_zero_iff w
  · rw [← code_zero_iff_success]
    exact main_code_zero_iff w

/-- Claim C3: in every execution the trace is in strict program order —
the parse (connect) strictly before the ping, client construction strictly
before the ping, the ping strictly before the cursor open, the cursor open
strictly before every document print, never two cursor advances without the
delivered document printed in between, and no operation retried (parse,
build, ping and find each occur at most once). -/
theorem c3_strict_program_order (w : World) :
    EventsBefore isParseE isPingE (main w).1 ∧
    EventsBefore isBuildE isPingE (main w).1 ∧
    EventsBefore isPingE isFindE (main w).1 ∧
    EventsBefore isFindE isPrintDocE (main w).1 ∧
    NoAdjacentAdvances (main w).1 ∧
    (main w).1.countP isParseE ≤ 1 ∧ (main w).1.countP isBuildE ≤ 1 ∧
    (main w).1.countP isPingE ≤ 1 ∧ (main w).1.countP isFindE ≤ 1 := by
  obtain ⟨uri, ds, hpre⟩ := main_trace_pre w
  exact ⟨eventsBefore_of_trace_pre _ _ _ _ hpre (fullTrace_parse_before_ping uri ds),
    eventsBefore_of_trace_pre _ _ _ _ hpre (fullTrace_build_before_ping uri ds),
    eventsBefore_of_trace_pre _ _ _ _ hpre (fullTrace_ping_before_find uri ds),
    eventsBefore_of_trace_pre _ _ _ _ hpre (fullTrace_find_before_printDoc uri ds),
    noAdjacentAdvances_of_trace_pre _ _ hpre (fullTrace_chain uri ds),
    Nat.le_trans (countP_le_of_trace_pre _ _ _ hpre) (fullTrace_count_parse uri ds),
    Nat.le_trans (countP_le_of_trace_pre _ _ _ hpre) (fullTrace_count_build uri ds),
    Nat.le_trans (countP_le_of_trace_pre _ _ _ hpre) (fullTrace_count_ping uri ds),
    Nat.le_trans (countP_le_of_trace_pre _ _ _ hpre) (fullTrace_count_find uri ds)⟩

/-- Claim C4: when the connection string fails to parse, the run ends with
that error (nonzero exit) and neither the ping, nor the cursor open, nor
any cursor advance is ever attempted. -/
theorem c4_parse_failure_stops_run (w : World) (uri : String) (e : DriverError)
    (h1 : w.envUri = some uri) (h2 : w.parseResult uri = Except.error e) :
    (main w).2 = ExitKind.errorExit e ∧ (main w).2.code ≠ 0 ∧
    (main w).1.countP isPingE = 0 ∧ (main w).1.countP isFindE = 0 ∧
    (main w).1.countP isAdvanceE = 0 := by
  rw [main_parse_err w uri e h1 h2]
  refine ⟨rfl, by simp [ExitKind.code], ?_, ?_, ?_⟩ <;>
    simp [List.countP_cons, isPingE, isFindE, isAdvanceE]

/-- Witness for C4: a concrete world with a malformed connection string. -/
theorem c4_parse_failure_stops_run_witness :
    (main parseFailWorld).2 =
      ExitKind.errorExit { msg := "invalid connection string scheme" } ∧
    (main parseFailWorld).2.code ≠ 0 ∧
    (main parseFailWorld).1.countP isPingE = 0 ∧
    (main parseFailWorld).1.countP isFindE = 0 ∧
    (main parseFailWorld).1.countP isAdvanceE = 0 :=
  c4_parse_failure_stops_run parseFailWorld "not-a-connection-string"
    { msg := "invalid connection string scheme" } rfl rfl

/-- Claim C5: with the environment variable unset, the run stops at the
`expect` panic with its diagnostic; the trace holds only the environment
read — no parse, client construction, ping, cursor open or advance — and
the exit is nonzero. -/
theorem c5_env_missing_no_network (w : World) (h : w.envUri = none) :
    main w = ([Event.envRead mongodbUriVar],
      ExitKind.panicExit mongodbUriMissingMsg) ∧
    (main w).2.code ≠ 0 ∧
    (main w).1.countP isParseE = 0 ∧ (main w).1.countP isBuildE = 0 ∧
    (main w).1.countP isPingE = 0 ∧ (main w).1.countP isFindE = 0 ∧
    (main w).1.countP isAdvanceE = 0 := by
  rw [main_env_none w h]
  refine ⟨rfl, by simp [ExitKind.code], ?_, ?_, ?_, ?_, ?_⟩ <;>
    simp [List.countP_cons, isParseE, isBuildE, isPingE, isFindE, isAdvanceE]

/-- Witness for C5: the concrete world with no `MONGODB_URI`. -/
theorem c5_env_missing_no_network_witness :
    main envMissingWorld = ([Event.envRead mongodbUriVar],
      ExitKind.panicExit mongodbUriMissingMsg) ∧
    (main envMissingWorld).2.code ≠ 0 ∧
    (main envMissingWorld).1.countP isParseE = 0 ∧
    (main envMissingWorld).1.countP isBuildE = 0 ∧
    (main envMissingWorld).1.countP isPingE = 0 ∧
    (main envMissingWorld).1.countP isFindE = 0 ∧
    (main envMissingWorld).1.countP isAdvanceE = 0 :=
  c5_env_missing_no_network envMissingWorld rfl

/-- Claim C6: when the cursor fails after delivering some documents, the
run ends with the cursor error (nonzero exit) and precisely the documents
delivered before the failure have been printed. -/
theorem c6_mid_scan_failure (w : World) (uri : String)
    (clientOptions : ClientOptions) (client : Client) (d : Document)
    (cursor : Cursor) (e : DriverError) (h1 : w.envUri = some uri)
    (h2 : w.parseResult uri = Except.ok clientOptions)
    (h3 : w.clientResult clientOptions = Except.ok client)
    (h4 : w.pingResult client = Except.ok d)
    (h5 : w.findResult client mainFindCall = Except.ok cursor)
    (h6 : cursor.tailErr = some e) :
    (main w).2 = ExitKind.errorExit e ∧ (main w).2.code ≠ 0 ∧
    printedDocs (main w).1 = cursor.docs := by
  refine ⟨?_, ?_, main_printedDocs_find_ok w uri clientOptions client d cursor
    h1 h2 h3 h4 h5⟩
  · rw [main_find_ok w uri clientOptions client d cursor h1 h2 h3 h4 h5]
    show (scanLoop cursor.docs cursor.tailErr).2 = ExitKind.errorExit e
    rw [h6, scanLoop_exit_some]
  · rw [main_find_ok w uri clientOptions client d cursor h1 h2 h3 h4 h5]
    show ((scanLoop cursor.docs cursor.tailErr).2).code ≠ 0
    rw [h6, scanLoop_exit_some]
    simp [ExitKind.code]

/-- Witness for C6: a store that fails after delivering one document. -/
theorem c6_mid_scan_failure_witness :
    (main midScanFailWorld).2 =
      ExitKind.errorExit { msg := "connection reset by peer" } ∧
    (main midScanFailWorld).2.code ≠ 0 ∧
    printedDocs (main midScanFailWorld).1 = [sampleDoc1] :=
  c6_mid_scan_failure midScanFailWorld "mongodb://localhost:27017"
    { srcUri := "mongodb://localhost:27017" }
    { opts := { srcUri := "mongodb://localhost:27017" } } pingOkReply
    { docs := [sampleDoc1], tailErr := some { msg := "connection reset by peer" } }
    { msg := "connection reset by peer" } rfl rfl rfl rfl rfl rfl

/-- Claim C7 counterexample: in a concrete reachable world whose target
collection is empty, the process does exit zero, yet it has not "printed
nothing": stdout carries the two fixed status lines, so the claim as stated
is false at this input. -/
theorem c7_empty_scan_counterexample :
    (main emptyOkWorld).2 = ExitKind.success ∧
    outputEvents (main emptyOkWorld).1 ≠ [] ∧
    printedLines (main emptyOkWorld).1 = [connectedMsg, genresHeaderMsg] := by
  refine ⟨rfl, ?_, rfl⟩
  intro hcontra
  exact absurd (congrArg List.length hcontra) (by decide)

/-- Claim C7 (amended): for a reachable store whose target collection holds
zero documents, the scan yields the empty sequence and the process exits
zero having printed no documents — only the two fixed status lines. -/
theorem c7_empty_scan_amended (w : World) (uri : String)
    (clientOptions : ClientOptions) (client : Client) (d : Document)
    (cursor : Cursor) (h1 : w.envUri = some uri)
    (h2 : w.parseResult uri = Except.ok clientOptions)
    (h3 : w.clientResult clientOptions = Except.ok client)
    (h4 : w.pingResult client = Except.ok d)
    (h5 : w.findResult client mainFindCall = Except.ok cursor)
    (hd : cursor.docs = []) (h6 : cursor.tailErr = none) :
    (main w).2 = ExitKind.success ∧ printedDocs (main w).1 = [] ∧
    printedLines (main w).1 = [connectedMsg, genresHeaderMsg] := by
  refine ⟨?_, ?_, main_printedLines_find_ok w uri clientOptions client d cursor
    h1 h2 h3 h4 h5⟩
  · rw [main_find_ok w uri clientOptions client d cursor h1 h2 h3 h4 h5]
    show (scanLoop cursor.docs cursor.tailErr).2 = ExitKind.success
    rw [h6, scanLoop_exit_none]
  · rw [main_printedDocs_find_ok w uri clientOptions client d cursor h1 h2 h3 h4 h5]
    exact hd

/-- Witness for the amended C7: the concrete empty-collection world. -/
theorem c7_empty_scan_amended_witness :
    (main emptyOkWorld).2 = ExitKind.success ∧
    printedDocs (main emptyOkWorld).1 = [] ∧
    printedLines (main emptyOkWorld).1 = [connectedMsg, genresHeaderMsg] :=
  c7_empty_scan_amended emptyOkWorld "mongodb://localhost:27017"
    { srcUri := "mongodb://localhost:27017" }
    { opts := { srcUri := "mongodb://localhost:27017" } } pingOkReply
    { docs := [], tailErr := none } rfl rfl rfl rfl rfl rfl rfl

/-- Claim C8: every `find` issued in any run targets the fixed logical
database "book_club" and the fixed collection "genres", with no filter and
no options (hence no projection, no sort, no limit), independent of input. -/
theorem c8_find_call_fixed (w : World) (call : FindCall)
    (h : Event.opFind call ∈ (main w).1) :
    call.dbName = bookClubDbName ∧ call.collName = genresCollName ∧
    call.filter = none ∧ call.options = none := by
  obtain ⟨uri, ds, hpre⟩ := main_trace_pre w
  rcases hpre with ⟨rest, heq⟩
  have h2 : Event.opFind call ∈ (main w).1 ++ rest := List.mem_append_left rest h
  rw [← heq] at h2
  unfold fullTrace at h2
  rw [List.mem_append] at h2
  rcases h2 with h2 | h2
  · simp only [fullHead, List.mem_cons, List.not_mem_nil, or_false] at h2
    rcases h2 with h3 | h3 | h3 | h3 | h3 | h3 | h3
    · exact Event.noConfusion h3
    · exact Event.noConfusion h3
    · exact Event.noConfusion h3
    · exact Event.noConfusion h3
    · exact Event.noConfusion h3
    · injection h3 with h4
      subst h4
      exact ⟨rfl, rfl, rfl, rfl⟩
    · exact Event.noConfusion h3
  · rcases scanLoop_mem ds none _ h2 with h3 | ⟨dd, h3⟩
    · exact Event.noConfusion h3
    · exact Event.noConfusion h3

/-- Witness for C8: the find event occurs in a concrete run, and its call is
the fixed one. -/
theorem c8_find_call_fixed_witness :
    Event.opFind mainFindCall ∈ (main emptyOkWorld).1 ∧
    (mainFindCall.dbName = bookClubDbName ∧
     mainFindCall.collName = genresCollName ∧
     mainFindCall.filter = none ∧ mainFindCall.options = none) := by
  have htr : (main emptyOkWorld).1 = [Event.envRead mongodbUriVar,
    Event.opParse "mongodb://localhost:27017", Event.opClientBuild,
    Event.opRunCommand adminDbName pingCommand, Event.printLine connectedMsg,
    Event.opFind mainFindCall, Event.printLine genresHeaderMsg,
    Event.opAdvance] := rfl
  have hmem : Event.opFind mainFindCall ∈ (main emptyOkWorld).1 := by
    rw [htr]
    simp
  exact ⟨hmem, c8_find_call_fixed emptyOkWorld mainFindCall hmem⟩

/-- Claim C9: the body of a successful ping reply is ignored — two worlds
identical in everything except the (successful) ping reply body produce the
same trace, the same output and the same exit status. -/
theorem c9_ping_body_ignored (w1 w2 : World)
    (henv : w2.envUri = w1.envUri)
    (hparse : w2.parseResult = w1.parseResult)
    (hclient : w2.clientResult = w1.clientResult)
    (hfind : w2.findResult = w1.findResult)
    (hping : ∀ c : Client, (∃ d, w1.pingResult c = Except.ok d) ∧
      (∃ d, w2.pingResult c = Except.ok d)) :
    main w1 = main w2 := by
  rcases henv1 : w1.envUri with _ | uri
  · rw [main_env_none w1 henv1, main_env_none w2 (by rw [henv, henv1])]
  rcases hp1 : w1.parseResult uri with e | clientOptions
  · rw [main_parse_err w1 uri e henv1 hp1,
      main_parse_err w2 uri e (by rw [henv, henv1]) (by rw [hparse, hp1])]
  rcases hc1 : w1.clientResult clientOptions with e | client
  · rw [main_client_err w1 uri clientOptions e henv1 hp1 hc1,
      main_client_err w2 uri clientOptions e (by rw [henv, henv1])
        (by rw [hparse, hp1]) (by rw [hclient, hc1])]
  obtain ⟨⟨d1, hd1⟩, d2, hd2⟩ := hping client
  rcases hf1 : w1.findResult client mainFindCall with e | cursor
  · rw [main_find_err w1 uri clientOptions client d1 e henv1 hp1 hc1 hd1 hf1,
      main_find_err w2 uri clientOptions client d2 e (by rw [henv, henv1])
        (by rw [hparse, hp1]) (by rw [hclient, hc1]) hd2 (by rw [hfind, hf1])]
  · rw [main_find_ok w1 uri clientOptions client d1 cursor henv1 hp1 hc1 hd1 hf1,
      main_find_ok w2 uri clientOptions client d2 cursor (by rw [henv, henv1])
        (by rw [hparse, hp1]) (by rw [hclient, hc1]) hd2 (by rw [hfind, hf1])]

/-- Witness for C9: two concrete worlds whose ping replies differ in body. -/
theorem c9_ping_body_ignored_witness :
    main (demoWorld pingOkReply [sampleDoc1] none) =
      main (demoWorld [("ok", Bson.int 1), ("extra", Bson.boolean true)]
        [sampleDoc1] none) :=
  c9_ping_body_ignored (demoWorld pingOkReply [sampleDoc1] none)
    (demoWorld [("ok", Bson.int 1), ("extra", Bson.boolean true)] [sampleDoc1] none)
    rfl rfl rfl rfl
    (fun _ => ⟨⟨pingOkReply, rfl⟩,
      ⟨[("ok", Bson.int 1), ("extra", Bson.boolean true)], rfl⟩⟩)

/-- Claim C10: the confirmation line "Connected to MongoDB!" is printed
exactly when connect and ping have both succeeded and strictly before any
scan activity (cursor open or advance); the header "Genres in collection:"
is printed exactly when the cursor opens successfully — also for an empty
collection — and strictly before any document print; hence a run failing at
or before the ping prints neither line. -/
theorem c10_status_lines (w : World) :
    (connectedMsg ∈ printedLines (main w).1 ↔ ConnectPingOk w) ∧
    (genresHeaderMsg ∈ printedLines (main w).1 ↔ CursorOpenOk w) ∧
    EventsBefore isConnLineE isFindE (main w).1 ∧
    EventsBefore isConnLineE isAdvanceE (main w).1 ∧
    EventsBefore isHeaderLineE isPrintDocE (main w).1 := by
  obtain ⟨uriT, dsT, hpreT⟩ := main_trace_pre w
  refine ⟨?_, ?_,
    eventsBefore_of_trace_pre _ _ _ _ hpreT (fullTrace_conn_before_find uriT dsT),
    eventsBefore_of_trace_pre _ _ _ _ hpreT (fullTrace_conn_before_advance uriT dsT),
    eventsBefore_of_trace_pre _ _ _ _ hpreT (fullTrace_header_before_printDoc uriT dsT)⟩
  · rcases henv : w.envUri with _ | uri
    · rw [main_env_none w henv]
      constructor
      · intro hmem
        simp [printedLines] at hmem
      · intro hok
        exact absurd hok (not_connectPingOk_env_none w henv)
    rcases hp : w.parseResult uri with e | clientOptions
    · rw [main_parse_err w uri e henv hp]
      constructor
      · intro hmem
        simp [printedLines] at hmem
      · intro hok
        exact absurd hok (not_connectPingOk_parse_err w uri e henv hp)
    rcases hc : w.clientResult clientOptions with e | client
    · rw [main_client_err w uri clientOptions e henv hp hc]
      constructor
      · intro hmem
        simp [printedLines] at hmem
      · intro hok
        exact absurd hok (not_connectPingOk_client_err w uri clientOptions e henv hp hc)
    rcases hping : w.pingResult client with e | d
    · rw [main_ping_err w uri clientOptions client e henv hp hc hping]
      constructor
      · intro hmem
        simp [printedLines] at hmem
      · intro hok
        exact absurd hok
          (not_connectPingOk_ping_err w uri clientOptions client e henv hp hc hping)
    rcases hf : w.findResult client mainFindCall with e | cursor
    · rw [main_find_err w uri clientOptions client d e henv hp hc hping hf]
      constructor
      · intro _
        exact ⟨uri, clientOptions, client, henv, hp, hc, d, hping⟩
      · intro _
        simp [printedLines]
    · rw [main_printedLines_find_ok w uri clientOptions client d cursor
        henv hp hc hping hf]
      constructor
      · intro _
        exact ⟨uri, clientOptions, client, henv, hp, hc, d, hping⟩
      · intro _
        simp
  · rcases henv : w.envUri with _ | uri
    · rw [main_env_none w henv]
      constructor
      · intro hmem
        simp [printedLines] at hmem
      · intro hok
        exact absurd hok
          (not_cursorOpenOk_of_not_connect w (not_connectPingOk_env_none w henv))
    rcases hp : w.parseResult uri with e | clientOptions
    · rw [main_parse_err w uri e henv hp]
      constructor
      · intro hmem
        simp [printedLines] at hmem
      · intro hok
        exact absurd hok (not_cursorOpenOk_of_not_connect w
          (not_connectPingOk_parse_err w uri e henv hp))
    rcases hc : w.clientResult clientOptions with e | client
    · rw [main_client_err w uri clientOptions e henv hp hc]
      constructor
      · intro hmem
        simp [printedLines] at hmem
      · intro hok
        exact absurd hok (not_cursorOpenOk_of_not_connect w
          (not_connectPingOk_client_err w uri clientOptions e henv hp hc))
    rcases hping : w.pingResult client with e | d
    · rw [main_ping_err w uri clientOptions client e henv hp hc hping]
      constructor
      · intro hmem
        simp [printedLines] at hmem
      · intro hok
        exact absurd hok (not_cursorOpenOk_of_not_connect w
          (not_connectPingOk_ping_err w uri clientOptions client e henv hp hc hping))
    rcases hf : w.findResult client mainFindCall with e | cursor
    · rw [main_find_err w uri clientOptions client d e henv hp hc hping hf]
      constructor
      · intro hmem
        simp only [printedLines, List.filterMap_cons] at hmem
        exact absurd hmem (by decide)
      · intro hok
        exact absurd hok
          (not_cursorOpenOk_find_err w uri clientOptions client e henv hp hc hf)
    · rw [main_printedLines_find_ok w uri clientOptions client d cursor
        henv hp hc hping hf]
      constructor
      · intro _
        exact ⟨uri, clientOptions, client, cursor, henv, hp, hc, ⟨d, hping⟩, hf⟩
      · intro _
        simp

end BookClub
